import Mathlib

/-!
Shallow embedding of the RegRadar query-processing pipeline
(`tools/web_tools.py`, `tools/llm.py`, `agents/reg_radar.py`,
`agents/ui_handler.py`, `config/settings.py`) and proofs of the
specification's testable properties about it.

Python strings are modelled as Lean `String` (a list of characters);
Python `str.lower`, `str.strip`, slicing `[:n]`, substring membership
`sub in s` and `str.startswith` are modelled character-wise below.
External services (the Tavily crawl/search client and the completion
service) are modelled as explicit environments passed to the embedded
functions; an exception raised by a service call is modelled as `none`.
-/

/-- Models Python `str.lower()` (ASCII case folding, the case the data uses). -/
def pyLower (s : String) : String :=
  String.mk (s.data.map Char.toLower)

/-- Models Python `str.strip()`: drop leading and trailing whitespace. -/
def pyStrip (s : String) : String :=
  String.mk (((s.data.dropWhile Char.isWhitespace).reverse.dropWhile Char.isWhitespace).reverse)

/-- Models Python slicing `s[:n]` on strings (first `n` characters). -/
def pySlice (n : Nat) (s : String) : String :=
  String.mk (s.data.take n)

/-- `charsLead p l` is true when the character list `p` is an initial segment of `l`. -/
def charsLead : List Char → List Char → Bool
  | [], _ => true
  | _ :: _, [] => false
  | c :: cs, d :: ds => c == d && charsLead cs ds

/-- `charsHas needle hay` is true when `needle` occurs contiguously inside `hay`. -/
def charsHas (needle : List Char) : List Char → Bool
  | [] => needle.isEmpty
  | c :: rest => charsLead needle (c :: rest) || charsHas needle rest

/-- Models Python `sub in hay` for strings (contiguous substring test). -/
def pyContains (hay sub : String) : Bool :=
  charsHas sub.data hay.data

/-- Models Python `s.startswith(p)`. -/
def pyStartswith (s p : String) : Bool :=
  charsLead p.data s.data

/-- Values produced by Python `json.loads`. -/
inductive Json where
  | null
  | bool (b : Bool)
  | num (n : Int)
  | str (s : String)
  | arr (elems : List Json)
  | obj (fields : List (String × Json))

/-- Models Python `d[key] = v` on a dict rendered as an ordered
association list: replace the value in place if the key is present,
otherwise append the new binding at the end (insertion order). -/
def dictSet (fields : List (String × Json)) (key : String) (v : Json) :
    List (String × Json) :=
  match fields with
  | [] => [(key, v)]
  | (k, w) :: rest =>
      if k == key then (k, v) :: rest else (k, w) :: dictSet rest key v

/-- Models the membership test
`params.get("report_type") in ["quick", "summary", "full"]`
(`reg_radar.py` line 150): only the Python strings compare equal. -/
def isValidReportType : Option Json → Bool
  | some (Json.str "quick") => true
  | some (Json.str "summary") => true
  | some (Json.str "full") => true
  | _ => false

/-- `config/settings.py` `REGULATORY_SOURCES`: region → ordered
(source name, seed URL) pairs, as an ordered association list. -/
def REGULATORY_SOURCES : List (String × List (String × String)) :=
  [("US",
    [("SEC", "https://www.sec.gov/news/pressreleases"),
     ("Federal Register", "https://www.federalregister.gov/documents/current"),
     ("Federal Reserve Board", "https://www.federalreserve.gov/newsevents/pressreleases.htm"),
     ("CFTC", "https://www.cftc.gov/PressRoom/PressReleases"),
     ("FDIC", "https://www.fdic.gov/news/press-releases/"),
     ("FINRA", "https://www.finra.org/media-center/newsreleases"),
     ("FDA", "https://www.fda.gov/news-events/fda-newsroom/press-announcements"),
     ("FTC", "https://www.ftc.gov/news-events/news/press-releases"),
     ("NIST AI RMF", "https://www.nist.gov/itl/ai-risk-management-framework"),
     ("FCC", "https://www.fcc.gov/news-events/press-releases")]),
   ("EU",
    [("ESMA", "https://www.esma.europa.eu/press-news/esma-news"),
     ("European Parliament News", "https://www.europarl.europa.eu/news/en/press-room"),
     ("EBA", "https://www.eba.europa.eu/publications-and-media"),
     ("EIOPA", "https://www.eiopa.europa.eu/media/news_en"),
     ("ECB", "https://www.ecb.europa.eu/press/pr/html/index.en.html"),
     ("EU AI Act", "https://artificialintelligenceact.eu/")]),
   ("UK",
    [("ICO", "https://ico.org.uk/about-the-ico/news-and-events/news/"),
     ("FCA", "https://www.fca.org.uk/news/press-releases"),
     ("Ofcom", "https://www.ofcom.org.uk/about-ofcom/latest/media/media-releases"),
     ("UK Parliament AI News", "https://www.parliament.uk/business/news/ai/")]),
   ("Asia",
    [("Japan FSA", "https://www.fsa.go.jp/en/news/"),
     ("Reserve Bank of India (RBI)", "https://www.rbi.org.in/Scripts/BS_PressReleaseDisplay.aspx"),
     ("Singapore IMDA", "https://www.imda.gov.sg/news-and-events/Media-Room/Media-Releases"),
     ("China MIIT", "https://www.miit.gov.cn/")]),
   ("Africa",
    [("African Union", "https://au.int/en/pressreleases"),
     ("NTRA Egypt", "https://www.tra.gov.eg/en/media-center/news/"),
     ("NCC Nigeria", "https://www.ncc.gov.ng/media-centre/news-headlines"),
     ("ICASA South Africa", "https://www.icasa.org.za/news-events")]),
   ("Middle East",
    [("TRA UAE", "https://tdra.gov.ae/en/media-centre/news.aspx"),
     ("CITC Saudi Arabia", "https://www.citc.gov.sa/en/mediacenter/pressreleases/Pages/default.aspx"),
     ("Qatar CRA", "https://www.cra.gov.qa/en/media-center/news")]),
   ("Canada",
    [("CRTC", "https://crtc.gc.ca/eng/NEWS/RELEASES/"),
     ("ISED", "https://ised-isde.canada.ca/site/innovation-canada/en/news"),
     ("Office of the Privacy Commissioner", "https://www.priv.gc.ca/en/opc-news/news-and-announcements/")]),
   ("Australia",
    [("ACMA", "https://www.acma.gov.au/newsroom"),
     ("OAIC", "https://www.oaic.gov.au/about-the-OAIC/news-and-events/news-and-media-releases"),
     ("NSW AI Assurance Framework", "https://www.digital.nsw.gov.au/policy/artificial-intelligence/ai-assurance-framework")]),
   ("China",
    [("CAC", "http://www.cac.gov.cn/"),
     ("Ministry of Industry and Information Technology", "https://www.miit.gov.cn/"),
     ("Shanghai AI Regulations", "https://www.shanghai.gov.cn/nw12344/20220323/0001-12344_20220323_0001.html")]),
   ("India",
    [("MeitY", "https://www.meity.gov.in/press-releases"),
     ("TRAI", "https://www.trai.gov.in/release-publication/press-release"),
     ("NITI Aayog AI", "https://www.niti.gov.in/ai")]),
   ("Japan",
    [("MIC", "https://www.soumu.go.jp/english/index.html"),
     ("Japan AI Principles", "https://www.cas.go.jp/jp/seisaku/jinkouchinou/ai/en/ai_principles.pdf")]),
   ("Brazil",
    [("ANATEL", "https://www.anatel.gov.br/institucional/assuntos/noticias"),
     ("MCTIC", "http://www.mctic.gov.br/"),
     ("Brazil AI Law", "https://www.camara.leg.br/proposicoesWeb/fichadetramitacao?idProposicao=2224082")]),
   ("Russia",
    [("Roskomnadzor", "https://rkn.gov.ru/news/"),
     ("Ministry of Digital Development", "https://digital.gov.ru/ru/events/")]),
   ("Global",
    [("IMF", "https://www.imf.org/en/News"),
     ("World Bank", "https://www.worldbank.org/en/news/all"),
     ("BIS", "https://www.bis.org/press/index.htm"),
     ("OECD", "https://www.oecd.org/newsroom/"),
     ("ITU", "https://www.itu.int/en/ITU-D/Statistics/Pages/Events/press-releases.aspx")]),
   ("Technology",
    [("IEEE Standards News", "https://standards.ieee.org/news/"),
     ("ISO/IEC JTC 1/SC 42 (AI)", "https://www.iso.org/committee/6794475.html"),
     ("AI Now Institute", "https://ainowinstitute.org/reports.html"),
     ("OECD AI Policy Observatory", "https://oecd.ai/en/wonk/news")]),
   ("Telecom",
    [("International Telecommunication Union (ITU)", "https://www.itu.int/en/ITU-D/Statistics/Pages/Events/press-releases.aspx"),
     ("GSMA", "https://www.gsma.com/newsroom/press-release/")])]

/-- `config/settings.py` `SOURCE_FULL_NAMES`: short source name →
human-readable full name, as an ordered association list. -/
def SOURCE_FULL_NAMES : List (String × String) :=
  [("SEC", "U.S. Securities and Exchange Commission"),
   ("FDA", "U.S. Food and Drug Administration"),
   ("FTC", "Federal Trade Commission"),
   ("Federal Register", "Federal Register"),
   ("CFTC", "Commodity Futures Trading Commission"),
   ("FDIC", "Federal Deposit Insurance Corporation"),
   ("FINRA", "Financial Industry Regulatory Authority"),
   ("Federal Reserve Board", "Federal Reserve Board"),
   ("NIST AI RMF", "National Institute of Standards and Technology AI Risk Management Framework"),
   ("FCC", "Federal Communications Commission"),
   ("ESMA", "European Securities and Markets Authority"),
   ("EBA", "European Banking Authority"),
   ("EIOPA", "European Insurance and Occupational Pensions Authority"),
   ("European Parliament News", "European Parliament News"),
   ("ECB", "European Central Bank"),
   ("EU AI Act", "European Union Artificial Intelligence Act"),
   ("ICO", "UK Information Commissioner\x27s Office"),
   ("FCA", "UK Financial Conduct Authority"),
   ("Ofcom", "UK Office of Communications"),
   ("UK Parliament AI News", "UK Parliament Artificial Intelligence News"),
   ("Japan FSA", "Financial Services Agency of Japan"),
   ("Reserve Bank of India (RBI)", "Reserve Bank of India"),
   ("Singapore IMDA", "Infocomm Media Development Authority of Singapore"),
   ("China MIIT", "Ministry of Industry and Information Technology of China"),
   ("African Union", "African Union"),
   ("NTRA Egypt", "National Telecom Regulatory Authority of Egypt"),
   ("NCC Nigeria", "Nigerian Communications Commission"),
   ("ICASA South Africa", "Independent Communications Authority of South Africa"),
   ("TRA UAE", "Telecommunications and Digital Government Regulatory Authority (UAE)"),
   ("CITC Saudi Arabia", "Communications, Space and Technology Commission (Saudi Arabia)"),
   ("Qatar CRA", "Communications Regulatory Authority of Qatar"),
   ("CRTC", "Canadian Radio-television and Telecommunications Commission"),
   ("ISED", "Innovation, Science and Economic Development Canada"),
   ("Office of the Privacy Commissioner", "Office of the Privacy Commissioner of Canada"),
   ("ACMA", "Australian Communications and Media Authority"),
   ("OAIC", "Office of the Australian Information Commissioner"),
   ("NSW AI Assurance Framework", "New South Wales AI Assurance Framework"),
   ("CAC", "Cyberspace Administration of China"),
   ("Ministry of Industry and Information Technology", "Ministry of Industry and Information Technology of China"),
   ("Shanghai AI Regulations", "Shanghai AI Regulations"),
   ("MeitY", "Ministry of Electronics and Information Technology (India)"),
   ("TRAI", "Telecom Regulatory Authority of India"),
   ("NITI Aayog AI", "NITI Aayog Artificial Intelligence Initiative (India)"),
   ("MIC", "Ministry of Internal Affairs and Communications (Japan)"),
   ("Japan AI Principles", "Japan Social Principles of Human-Centric AI"),
   ("ANATEL", "Agência Nacional de Telecomunicações (Brazil)"),
   ("MCTIC", "Ministry of Science, Technology, Innovations and Communications (Brazil)"),
   ("Brazil AI Law", "Brazil Artificial Intelligence Law"),
   ("Roskomnadzor", "Federal Service for Supervision of Communications, Information Technology and Mass Media (Russia)"),
   ("Ministry of Digital Development", "Ministry of Digital Development, Communications and Mass Media (Russia)"),
   ("BIS", "Bank for International Settlements"),
   ("IMF", "International Monetary Fund"),
   ("World Bank", "World Bank"),
   ("OECD", "Organisation for Economic Co-operation and Development"),
   ("ITU", "International Telecommunication Union"),
   ("IEEE Standards News", "IEEE Standards Association News"),
   ("ISO/IEC JTC 1/SC 42 (AI)", "ISO/IEC Joint Technical Committee 1/Subcommittee 42 on Artificial Intelligence"),
   ("AI Now Institute", "AI Now Institute"),
   ("OECD AI Policy Observatory", "OECD AI Policy Observatory"),
   ("International Telecommunication Union (ITU)", "International Telecommunication Union"),
   ("GSMA", "GSM Association")]

/-- One entry of a Tavily `crawl` response (`crawl_response["results"]`).
Fields model Python `result.get(...)`: `none` means the key is absent. -/
structure CrawlItem where
  url : Option String
  title : Option String
  raw_content : Option String
deriving DecidableEq

/-- One entry of a Tavily `search` response (`search_results["results"]`). -/
structure SearchItem where
  url : Option String
  title : Option String
  content : Option String
deriving DecidableEq

/-- The Tavily client, modelled as an environment: each call either
raises (`none`) or returns the response item list (absence of the
`"results"` key is folded into the empty list). `crawl` is keyed by the
url and instructions arguments, `search` by the query string
(`max_depth`, `limit`, `max_results` are fixed constants in the source). -/
structure TavilyEnv where
  crawl : String → String → Option (List CrawlItem)
  search : String → Option (List SearchItem)

/-- One formatted result dict appended to `all_results` in `web_tools.py`. -/
structure RRItem where
  source : String
  url : String
  title : String
  content : String
deriving DecidableEq

/-- The dict `{"results": all_results, "total_found": len(all_results)}`. -/
structure CrawlResults where
  results : List RRItem
  total_found : Nat
deriving DecidableEq

/-- The `WebTools.cached_searches` dict: cache key → stored results.
Insertion conses the new binding and `List.lookup` takes the first
match, which models dict update/lookup semantics. -/
abbrev Cache := List (String × CrawlResults)

/-- A network call issued to the Tavily client. -/
inductive NetCall where
  | crawl (url : String) (instructions : String)
  | search (query : String)
deriving DecidableEq

/-- `WebTools.generate_cache_key`: md5 hexdigest of
`f"{industry}:{region}:{keywords}".lower()`. The md5 hexdigest (library
code, not part of this repository) is abstracted as the `hash`
parameter applied to the lowercased key string. -/
def generate_cache_key (hash : String → String)
    (industry region keywords : String) : String :=
  hash (pyLower (industry ++ ":" ++ region ++ ":" ++ keywords))

/-- `REGULATORY_SOURCES.get(region, REGULATORY_SOURCES["US"])`
(`web_tools.py` line 32). -/
def selectEntry (region : String) : List (String × String) :=
  match REGULATORY_SOURCES.lookup region with
  | some entry => entry
  | none => (REGULATORY_SOURCES.lookup "US").getD []

/-- The crawl instruction string
`f"Recent {industry} {region} regulatory updates: {keywords}, 30 days"`. -/
def crawlInstructions (industry region keywords : String) : String :=
  "Recent " ++ industry ++ " " ++ region ++ " regulatory updates: " ++
    keywords ++ ", 30 days"

/-- The general search query
`f"{industry} {region} regulatory updates compliance {keywords} 2024 2025"`. -/
def searchQuery (industry region keywords : String) : String :=
  industry ++ " " ++ region ++ " regulatory updates compliance " ++
    keywords ++ " 2024 2025"

/-- The per-item formatting in `WebTools._get_crawl_results`: default the
url to the seed url, relabel a falsy or placeholder title with the
catalog full name, and truncate `raw_content` to 1500 characters. -/
def crawlFormat (source_name url : String) (item : CrawlItem) : RRItem :=
  let fullName := (SOURCE_FULL_NAMES.lookup source_name).getD source_name
  { source := source_name
    url := item.url.getD url
    title :=
      match item.title with
      | none => fullName
      | some t => if t == "" || t == "No Title..." then fullName else t
    content := pySlice 1500 (item.raw_content.getD "") }

/-- `WebTools._get_crawl_results`: crawl one source; an exception from
the client (`none`) is caught and contributes zero results. -/
def get_crawl_results (env : TavilyEnv)
    (source_name url instructions : String) : List RRItem :=
  match env.crawl url instructions with
  | none => []
  | some items => items.map (crawlFormat source_name url)

/-- The per-item formatting in `WebTools._get_search_results`: a fixed
`"Web Search"` source label and the content field passed through. -/
def searchFormat (item : SearchItem) : RRItem :=
  { source := "Web Search"
    url := item.url.getD ""
    title := item.title.getD ""
    content := item.content.getD "" }

/-- `WebTools._get_search_results`: one general web search; an exception
from the client (`none`) is caught and contributes zero results. -/
def get_search_results (env : TavilyEnv)
    (industry region keywords : String) : List RRItem :=
  match env.search (searchQuery industry region keywords) with
  | none => []
  | some items => items.map searchFormat

/-- The outcome of one `crawl_regulatory_sites` call: its return value,
the cache afterwards, and the network calls it issued. -/
structure RetrieveOutcome where
  res : CrawlResults
  cache : Cache
  calls : List NetCall

/-- `WebTools.crawl_regulatory_sites`: serve a cache hit without any
network call, otherwise crawl the first 3 catalog sources for the
region (falling back to the `"US"` entry), run the general search,
aggregate, and store under the cache key. -/
def crawl_regulatory_sites (hash : String → String) (env : TavilyEnv)
    (cache : Cache) (industry region keywords : String) : RetrieveOutcome :=
  let cache_key := generate_cache_key hash industry region keywords
  match List.lookup cache_key cache with
  | some stored => ⟨stored, cache, []⟩
  | none =>
      let urls_to_crawl := selectEntry region
      let instructions := crawlInstructions industry region keywords
      let sources := urls_to_crawl.take 3
      let all_results :=
        (sources.map (fun p => get_crawl_results env p.1 p.2 instructions)).flatten
          ++ get_search_results env industry region keywords
      let results : CrawlResults := ⟨all_results, all_results.length⟩
      ⟨results, (cache_key, results) :: cache,
        sources.map (fun p => NetCall.crawl p.2 instructions)
          ++ [NetCall.search (searchQuery industry region keywords)]⟩

/-- `tools/llm.py` `call_llm`: return the completion text, or on any
exception the fixed apology string. The completion service is modelled
as `none` (call raised) or `some text`. -/
def call_llm (service : Option String) : String :=
  match service with
  | some text => text
  | none => "I apologize, but I encountered an error processing your request."

/-- `RegRadarAgent.is_regulatory_query`:
`call_llm(intent_prompt).strip().lower().startswith("y")`. -/
def is_regulatory_query (service : Option String) : Bool :=
  pyStartswith (pyLower (pyStrip (call_llm service))) "y"

/-- The phrase list for the `"summary"` heuristic in
`RegRadarAgent.extract_parameters`. -/
def summaryWords : List String := ["summary", "summarize", "short summary"]

/-- The phrase list for the `"full"` heuristic. -/
def fullWords : List String := ["report", "full report", "comprehensive"]

/-- The phrase list for the `"quick"` heuristic. -/
def quickWords : List String :=
  ["when is", "who is", "how much", "how many", "specific", "exact",
   "detail", "quick", "brief", "answer", "fact", "date", "number",
   "tell me more", "give me more", "more details", "more info",
   "expand on", "elaborate on"]

/-- `any(word in msg_lower for word in words)`. -/
def anyWordIn (words : List String) (msgLower : String) : Bool :=
  words.any (fun w => pyContains msgLower w)

/-- The `report_type` heuristic chain in the fallback branch of
`RegRadarAgent.extract_parameters` (lines 106-142). -/
def fallbackReportType (message : String) : String :=
  let msgLower := pyLower message
  if anyWordIn summaryWords msgLower then "summary"
  else if anyWordIn fullWords msgLower then "full"
  else if anyWordIn quickWords msgLower then "quick"
  else "full"

/-- The params dict built by the fallback branch of
`RegRadarAgent.extract_parameters` (lines 143-148). -/
def fallbackParams (message : String) : List (String × Json) :=
  [("industry", Json.str "General"),
   ("region", Json.str "US"),
   ("keywords", Json.str ""),
   ("report_type", Json.str (fallbackReportType message))]

/-- `RegRadarAgent.extract_parameters`, as a function of the message and
of the outcome of `json.loads` on the completion response (`none`: the
response was not valid JSON, so the `except` branch builds the fallback
dict). After the `try/except`, `params.get("report_type")` is checked
and normalized; on a non-dict `params` that attribute access raises
`AttributeError`, modelled as `Except.error ()`. -/
def extract_parameters (message : String) (parsed : Option Json) :
    Except Unit Json :=
  let params : Json :=
    match parsed with
    | some v => v
    | none => Json.obj (fallbackParams message)
  match params with
  | Json.obj fields =>
      if isValidReportType (List.lookup "report_type" fields) then
        Except.ok (Json.obj fields)
      else
        Except.ok (Json.obj (dictSet fields "report_type" (Json.str "full")))
  | _ => Except.error ()

/-- The URL-deduplication loop in `UIHandler.streaming_chatbot`
(`ui_handler.py` lines 106-120), returning the kept results: skip any
result whose url is already in `seen_urls`, otherwise keep it and add
its url. (The loop only reads `crawl_results["results"]`; it builds a
new display list and never writes the cached aggregate.) -/
def streamingDedup (seen_urls : List String) : List RRItem → List RRItem
  | [] => []
  | r :: rest =>
      if seen_urls.contains r.url then streamingDedup seen_urls rest
      else r :: streamingDedup (r.url :: seen_urls) rest

/-- Modelled from the spec (§4.2 fallback rule 2), for comparison with
the source's fallback: region ← first match against a fixed whitelist
of region tokens (US, EU, UK, Asia, Global, ...), else `"US"`. -/
def specRegionWhitelist : List String := ["US", "EU", "UK", "Asia", "Global"]

/-- Modelled from the spec (§4.2 fallback rule 2): the region the
spec's rule-based fallback would derive from the message text. -/
def specFallbackRegion (message : String) : String :=
  match specRegionWhitelist.find? (fun r => pyContains message r) with
  | some r => r
  | none => "US"

/-- Modelled from the spec (§4.2 fallback rule 1), for comparison with
the source's fallback: a fixed industry → keyword-list table (fintech,
healthcare, energy, technology, retail, general, ...); each industry's
keyword list contains at least its own name. -/
def specIndustryTable : List (String × List String) :=
  [("fintech", ["fintech"]), ("healthcare", ["healthcare"]),
   ("energy", ["energy"]), ("technology", ["technology"]),
   ("retail", ["retail"]), ("general", ["general"])]

/-- Modelled from the spec (§4.2 fallback rule 1): the industry the
spec's rule-based fallback would derive — the first table row with a
keyword hit in the lowercased message, else `"General"`. -/
def specFallbackIndustry (message : String) : String :=
  match specIndustryTable.find?
      (fun p => p.2.any (fun w => pyContains (pyLower message) w)) with
  | some p => p.1
  | none => "General"

/-- A Tavily environment in which every call raises. -/
def emptyEnv : TavilyEnv := ⟨fun _ _ => none, fun _ => none⟩

/-- A Tavily environment in which only the third US catalog source and
the general search succeed. -/
def env2of3 : TavilyEnv :=
  { crawl := fun u _ =>
      if u == "https://www.federalreserve.gov/newsevents/pressreleases.htm" then
        some [⟨some "https://frb.example/a", some "Capital rule update", some "body text"⟩]
      else none,
    search := fun _ =>
      some [⟨some "https://web.example/b", some "Search hit", some "snippet"⟩] }

/-- A sample aggregate with 3 items and 2 distinct URLs. -/
def dedupSample : List RRItem :=
  [⟨"SEC", "https://a.example/1", "t1", "c1"⟩,
   ⟨"Web Search", "https://b.example/2", "t2", "c2"⟩,
   ⟨"FDA", "https://a.example/1", "t3", "c3"⟩]

/-- A 1501-character content string. -/
def longContent : String := String.mk (List.replicate 1501 'a')

/-- A Tavily environment whose general search returns one item with
1501 characters of content (all crawls raise). -/
def unboundedEnv : TavilyEnv :=
  { crawl := fun _ _ => none,
    search := fun _ =>
      some [⟨some "https://x.example/long", some "t", some longContent⟩] }

/-! ### Helper lemmas -/

theorem pyLower_append (a b : String) : pyLower (a ++ b) = pyLower a ++ pyLower b := by
  cases a with
  | mk la =>
    cases b with
    | mk lb =>
      show String.mk ((la ++ lb).map Char.toLower) =
        String.mk (la.map Char.toLower ++ lb.map Char.toLower)
      rw [List.map_append]

theorem lower_key_decompose (i r k : String) :
    pyLower (i ++ ":" ++ r ++ ":" ++ k) =
      pyLower i ++ ":" ++ pyLower r ++ ":" ++ pyLower k := by
  have hc : pyLower ":" = ":" := rfl
  simp only [pyLower_append, hc]

theorem string_append_cancel_right {a b c : String} (h : a ++ c = b ++ c) : a = b := by
  cases a with
  | mk la =>
    cases b with
    | mk lb =>
      cases c with
      | mk lc =>
        have hd : la ++ lc = lb ++ lc := congrArg String.data h
        exact congrArg String.mk (List.append_cancel_right hd)

theorem string_append_cancel_left {a b c : String} (h : a ++ b = a ++ c) : b = c := by
  cases a with
  | mk la =>
    cases b with
    | mk lb =>
      cases c with
      | mk lc =>
        have hd : la ++ lb = la ++ lc := congrArg String.data h
        exact congrArg String.mk (List.append_cancel_left hd)

theorem generate_cache_key_congr (hash : String → String)
    (i1 r1 k1 i2 r2 k2 : String)
    (hi : pyLower i1 = pyLower i2) (hr : pyLower r1 = pyLower r2)
    (hk : pyLower k1 = pyLower k2) :
    generate_cache_key hash i1 r1 k1 = generate_cache_key hash i2 r2 k2 := by
  unfold generate_cache_key
  rw [lower_key_decompose, lower_key_decompose, hi, hr, hk]

theorem lookup_cons_self (c : Cache) (k : String) (v : CrawlResults) :
    List.lookup k ((k, v) :: c) = some v := by
  simp [List.lookup]

theorem crawl_sites_hit (hash : String → String) (env : TavilyEnv) (cache : Cache)
    (i r k : String) (stored : CrawlResults)
    (h : List.lookup (generate_cache_key hash i r k) cache = some stored) :
    crawl_regulatory_sites hash env cache i r k = ⟨stored, cache, []⟩ := by
  simp only [crawl_regulatory_sites, h]

theorem crawl_sites_stores (hash : String → String) (env : TavilyEnv) (cache : Cache)
    (i r k : String) :
    List.lookup (generate_cache_key hash i r k)
        (crawl_regulatory_sites hash env cache i r k).cache =
      some (crawl_regulatory_sites hash env cache i r k).res := by
  cases h : List.lookup (generate_cache_key hash i r k) cache with
  | some stored => simp only [crawl_regulatory_sites, h]
  | none => simp only [crawl_regulatory_sites, h, lookup_cons_self]

theorem second_call_cached (hash : String → String) (env : TavilyEnv) (cache : Cache)
    (i1 r1 k1 i2 r2 k2 : String)
    (hi : pyLower i1 = pyLower i2) (hr : pyLower r1 = pyLower r2)
    (hk : pyLower k1 = pyLower k2) :
    crawl_regulatory_sites hash env
        (crawl_regulatory_sites hash env cache i1 r1 k1).cache i2 r2 k2 =
      ⟨(crawl_regulatory_sites hash env cache i1 r1 k1).res,
       (crawl_regulatory_sites hash env cache i1 r1 k1).cache, []⟩ := by
  apply crawl_sites_hit
  rw [← generate_cache_key_congr hash i1 r1 k1 i2 r2 k2 hi hr hk]
  exact crawl_sites_stores hash env cache i1 r1 k1

/-! ### Claim theorems -/

/-- C4: for all (industry, region, keywords), the cache fingerprint is
invariant under any permutation of letter case in any field, and — for
an injective digest (no hash collision) — changing any one field to a
case-insensitively different value changes the fingerprint. -/
theorem cache_key_case_invariant_field_sensitive :
    (∀ (hash : String → String) (i1 r1 k1 i2 r2 k2 : String),
        pyLower i1 = pyLower i2 → pyLower r1 = pyLower r2 →
        pyLower k1 = pyLower k2 →
        generate_cache_key hash i1 r1 k1 = generate_cache_key hash i2 r2 k2) ∧
    (∀ (hash : String → String), Function.Injective hash →
      ∀ (i r k i2 r2 k2 : String),
        (pyLower i ≠ pyLower i2 →
          generate_cache_key hash i r k ≠ generate_cache_key hash i2 r k) ∧
        (pyLower r ≠ pyLower r2 →
          generate_cache_key hash i r k ≠ generate_cache_key hash i r2 k) ∧
        (pyLower k ≠ pyLower k2 →
          generate_cache_key hash i r k ≠ generate_cache_key hash i r k2)) := by
  constructor
  · exact fun hash i1 r1 k1 i2 r2 k2 hi hr hk =>
      generate_cache_key_congr hash i1 r1 k1 i2 r2 k2 hi hr hk
  · intro hash hinj i r k i2 r2 k2
    refine ⟨fun hne heq => ?_, fun hne heq => ?_, fun hne heq => ?_⟩
    · unfold generate_cache_key at heq
      have h2 := hinj heq
      rw [lower_key_decompose, lower_key_decompose] at h2
      exact hne (string_append_cancel_right (string_append_cancel_right
        (string_append_cancel_right (string_append_cancel_right h2))))
    · unfold generate_cache_key at heq
      have h2 := hinj heq
      rw [lower_key_decompose, lower_key_decompose] at h2
      exact hne (string_append_cancel_left
        (string_append_cancel_right (string_append_cancel_right h2)))
    · unfold generate_cache_key at heq
      have h2 := hinj heq
      rw [lower_key_decompose, lower_key_decompose] at h2
      exact hne (string_append_cancel_left h2)

/-- Witness for C4 at concrete inputs (digest instantiated with the
injective identity function). -/
theorem cache_key_case_invariant_field_sensitive_witness :
    pyLower "FinTech" = pyLower "fintech" ∧
    Function.Injective (id : String → String) ∧
    pyLower "fintech" ≠ pyLower "health" ∧
    generate_cache_key id "FinTech" "EU" "GDPR" =
      generate_cache_key id "fintech" "EU" "GDPR" ∧
    generate_cache_key id "fintech" "EU" "GDPR" ≠
      generate_cache_key id "health" "EU" "GDPR" :=
  ⟨by decide, fun a b h => h, by decide,
   cache_key_case_invariant_field_sensitive.1 id
     "FinTech" "EU" "GDPR" "fintech" "EU" "GDPR" (by decide) (by decide) (by decide),
   (cache_key_case_invariant_field_sensitive.2 id (fun a b h => h)
     "fintech" "EU" "GDPR" "health" "EU" "GDPR").1 (by decide)⟩

/-- C1: a second `crawl_regulatory_sites` call with a case-insensitively
equal (industry, region, keywords) triple issues zero network calls,
leaves the cache unchanged, and returns the first call's stored result. -/
theorem retrieve_second_call_cache_hit :
    ∀ (hash : String → String) (env : TavilyEnv) (cache : Cache)
      (i1 r1 k1 i2 r2 k2 : String),
      pyLower i1 = pyLower i2 → pyLower r1 = pyLower r2 →
      pyLower k1 = pyLower k2 →
      crawl_regulatory_sites hash env
          (crawl_regulatory_sites hash env cache i1 r1 k1).cache i2 r2 k2 =
        ⟨(crawl_regulatory_sites hash env cache i1 r1 k1).res,
         (crawl_regulatory_sites hash env cache i1 r1 k1).cache, []⟩ :=
  fun hash env cache i1 r1 k1 i2 r2 k2 hi hr hk =>
    second_call_cached hash env cache i1 r1 k1 i2 r2 k2 hi hr hk

/-- Witness for C1 at a concrete query pair differing only in case. -/
theorem retrieve_second_call_cache_hit_witness :
    pyLower "Fintech" = pyLower "fintech" ∧ pyLower "EU" = pyLower "eu" ∧
    pyLower "MiCA" = pyLower "mica" ∧
    crawl_regulatory_sites id emptyEnv
        (crawl_regulatory_sites id emptyEnv [] "Fintech" "EU" "MiCA").cache
        "fintech" "eu" "mica" =
      ⟨(crawl_regulatory_sites id emptyEnv [] "Fintech" "EU" "MiCA").res,
       (crawl_regulatory_sites id emptyEnv [] "Fintech" "EU" "MiCA").cache, []⟩ :=
  ⟨by decide, by decide, by decide,
   retrieve_second_call_cache_hit id emptyEnv [] "Fintech" "EU" "MiCA"
     "fintech" "eu" "mica" (by decide) (by decide) (by decide)⟩

theorem length_flatten_map {α β : Type} (f : α → List β) :
    ∀ l : List α, ((l.map f).flatten).length = (l.map (fun a => (f a).length)).sum
  | [] => rfl
  | a :: t => by
      simp only [List.map_cons, List.flatten_cons, List.length_append,
        List.sum_cons, length_flatten_map f t]

theorem crawl_sites_nil_results (hash : String → String) (env : TavilyEnv)
    (i r k : String) :
    (crawl_regulatory_sites hash env [] i r k).res.results =
      (((selectEntry r).take 3).map
          (fun p => get_crawl_results env p.1 p.2 (crawlInstructions i r k))).flatten
        ++ get_search_results env i r k := rfl

theorem crawl_sites_nil_total (hash : String → String) (env : TavilyEnv)
    (i r k : String) :
    (crawl_regulatory_sites hash env [] i r k).res.total_found =
      ((((selectEntry r).take 3).map
          (fun p => get_crawl_results env p.1 p.2 (crawlInstructions i r k))).flatten
        ++ get_search_results env i r k).length := rfl

theorem crawl_sites_nil_calls (hash : String → String) (env : TavilyEnv)
    (i r k : String) :
    (crawl_regulatory_sites hash env [] i r k).calls =
      ((selectEntry r).take 3).map
          (fun p => NetCall.crawl p.2 (crawlInstructions i r k))
        ++ [NetCall.search (searchQuery i r k)] := rfl

/-- C2: on a cold cache, every catalog source (up to 3) and the general
search are attempted regardless of individual failures, a failing call
contributes zero results, no exception propagates (the embedded function
is total), and `total_found` is the sum of the item counts of the
surviving calls; in particular, if the first 2 of 3 catalog sources fail,
the aggregate is the surviving third source's results followed by the
general search's results. -/
theorem retrieve_partial_failure_resilience :
    ∀ (hash : String → String) (env : TavilyEnv) (i r k : String),
      (crawl_regulatory_sites hash env [] i r k).calls =
        ((selectEntry r).take 3).map
            (fun p => NetCall.crawl p.2 (crawlInstructions i r k))
          ++ [NetCall.search (searchQuery i r k)] ∧
      (crawl_regulatory_sites hash env [] i r k).res.total_found =
        (crawl_regulatory_sites hash env [] i r k).res.results.length ∧
      (crawl_regulatory_sites hash env [] i r k).res.total_found =
        (((selectEntry r).take 3).map
            (fun p => (get_crawl_results env p.1 p.2 (crawlInstructions i r k)).length)).sum
          + (get_search_results env i r k).length ∧
      (∀ sn u ins, env.crawl u ins = none → get_crawl_results env sn u ins = []) ∧
      (env.search (searchQuery i r k) = none → get_search_results env i r k = []) ∧
      (∀ p1 p2 p3 rest, (selectEntry r).take 3 = p1 :: p2 :: p3 :: rest →
        env.crawl p1.2 (crawlInstructions i r k) = none →
        env.crawl p2.2 (crawlInstructions i r k) = none →
        (crawl_regulatory_sites hash env [] i r k).res.results =
          get_crawl_results env p3.1 p3.2 (crawlInstructions i r k)
            ++ get_search_results env i r k) := by
  intro hash env i r k
  refine ⟨crawl_sites_nil_calls hash env i r k, ?_, ?_, ?_, ?_, ?_⟩
  · rw [crawl_sites_nil_total, crawl_sites_nil_results]
  · rw [crawl_sites_nil_total, List.length_append, length_flatten_map]
  · intro sn u ins h
    simp [get_crawl_results, h]
  · intro h
    simp [get_search_results, h]
  · intro p1 p2 p3 rest htake h1 h2
    have hle : ((selectEntry r).take 3).length ≤ 3 := List.length_take_le 3 _
    rw [htake] at hle
    have hrest : rest = [] := by
      cases rest with
      | nil => rfl
      | cons a t => simp only [List.length_cons] at hle; omega
    subst hrest
    rw [crawl_sites_nil_results, htake]
    simp [get_crawl_results, h1, h2]

/-- Witness for C2: with the first 2 of the 3 US catalog sources failing,
the aggregate is the surviving source's results plus the search results. -/
theorem retrieve_partial_failure_resilience_witness :
    (selectEntry "US").take 3 =
      [("SEC", "https://www.sec.gov/news/pressreleases"),
       ("Federal Register", "https://www.federalregister.gov/documents/current"),
       ("Federal Reserve Board", "https://www.federalreserve.gov/newsevents/pressreleases.htm")] ∧
    env2of3.crawl "https://www.sec.gov/news/pressreleases"
      (crawlInstructions "fintech" "US" "GDPR") = none ∧
    env2of3.crawl "https://www.federalregister.gov/documents/current"
      (crawlInstructions "fintech" "US" "GDPR") = none ∧
    (crawl_regulatory_sites id env2of3 [] "fintech" "US" "GDPR").res.results =
      get_crawl_results env2of3 "Federal Reserve Board"
          "https://www.federalreserve.gov/newsevents/pressreleases.htm"
          (crawlInstructions "fintech" "US" "GDPR")
        ++ get_search_results env2of3 "fintech" "US" "GDPR" :=
  ⟨rfl, rfl, rfl,
   (retrieve_partial_failure_resilience id env2of3 "fintech" "US" "GDPR").2.2.2.2.2
     ("SEC", "https://www.sec.gov/news/pressreleases")
     ("Federal Register", "https://www.federalregister.gov/documents/current")
     ("Federal Reserve Board", "https://www.federalreserve.gov/newsevents/pressreleases.htm")
     [] rfl rfl rfl⟩

/-- C9: for any region absent from the catalog, `crawl_regulatory_sites`
selects the `"US"` catalog entry and its cold-cache crawl fan-out issues
exactly the crawl calls for the first 3 US sources (plus the one general
search). -/
theorem unknown_region_uses_us_catalog :
    ∀ (hash : String → String) (env : TavilyEnv) (i k region : String),
      REGULATORY_SOURCES.lookup region = none →
      selectEntry region = selectEntry "US" ∧
      (crawl_regulatory_sites hash env [] i region k).calls =
        ((selectEntry "US").take 3).map
            (fun p => NetCall.crawl p.2 (crawlInstructions i region k))
          ++ [NetCall.search (searchQuery i region k)] := by
  intro hash env i k region h
  have hsel : selectEntry region = selectEntry "US" := by
    unfold selectEntry
    rw [h]
    rfl
  refine ⟨hsel, ?_⟩
  rw [crawl_sites_nil_calls, hsel]

/-- Witness for C9 at the spec's example region `"Atlantis"`. -/
theorem unknown_region_uses_us_catalog_witness :
    REGULATORY_SOURCES.lookup "Atlantis" = none ∧
    selectEntry "Atlantis" = selectEntry "US" ∧
    (crawl_regulatory_sites id emptyEnv [] "fintech" "Atlantis" "GDPR").calls =
      ((selectEntry "US").take 3).map
          (fun p => NetCall.crawl p.2 (crawlInstructions "fintech" "Atlantis" "GDPR"))
        ++ [NetCall.search (searchQuery "fintech" "Atlantis" "GDPR")] :=
  ⟨rfl,
   (unknown_region_uses_us_catalog id emptyEnv "fintech" "GDPR" "Atlantis" rfl).1,
   (unknown_region_uses_us_catalog id emptyEnv "fintech" "GDPR" "Atlantis" rfl).2⟩

/-- C10: `"EU"` and `"eu"` share one cache fingerprint (the key string is
lowercased before hashing) while the catalog lookup is case-sensitive, so
on a cold cache `"eu"` falls back to the `"US"` catalog entry for its
fan-out; whichever casing is retrieved first fixes the cached aggregate
that the other casing then receives with zero network calls. -/
theorem region_case_fingerprint_vs_catalog :
    (∀ (hash : String → String) (i k : String),
        generate_cache_key hash i "EU" k = generate_cache_key hash i "eu" k) ∧
    selectEntry "eu" = selectEntry "US" ∧
    selectEntry "EU" ≠ selectEntry "US" ∧
    (∀ (hash : String → String) (env : TavilyEnv) (i k : String),
        crawl_regulatory_sites hash env
            (crawl_regulatory_sites hash env [] i "EU" k).cache i "eu" k =
          ⟨(crawl_regulatory_sites hash env [] i "EU" k).res,
           (crawl_regulatory_sites hash env [] i "EU" k).cache, []⟩) ∧
    (∀ (hash : String → String) (env : TavilyEnv) (i k : String),
        (crawl_regulatory_sites hash env [] i "eu" k).calls =
          ((selectEntry "US").take 3).map
              (fun p => NetCall.crawl p.2 (crawlInstructions i "eu" k))
            ++ [NetCall.search (searchQuery i "eu" k)] ∧
        crawl_regulatory_sites hash env
            (crawl_regulatory_sites hash env [] i "eu" k).cache i "EU" k =
          ⟨(crawl_regulatory_sites hash env [] i "eu" k).res,
           (crawl_regulatory_sites hash env [] i "eu" k).cache, []⟩) := by
  refine ⟨?_, rfl, by decide, ?_, ?_⟩
  · intro hash i k
    exact generate_cache_key_congr hash i "EU" k i "eu" k rfl rfl rfl
  · intro hash env i k
    exact second_call_cached hash env [] i "EU" k i "eu" k rfl rfl rfl
  · intro hash env i k
    refine ⟨?_, second_call_cached hash env [] i "eu" k i "EU" k rfl rfl rfl⟩
    rw [crawl_sites_nil_calls]
    rfl

theorem streamingDedup_cons_mem {seen : List String} {r : RRItem}
    {rest : List RRItem} (h : seen.contains r.url = true) :
    streamingDedup seen (r :: rest) = streamingDedup seen rest := by
  simp only [streamingDedup, if_pos h]

theorem streamingDedup_cons_not_mem {seen : List String} {r : RRItem}
    {rest : List RRItem} (h : ¬ seen.contains r.url = true) :
    streamingDedup seen (r :: rest) = r :: streamingDedup (r.url :: seen) rest := by
  simp only [streamingDedup, if_neg h]

theorem streamingDedup_sublist (l : List RRItem) :
    ∀ seen, (streamingDedup seen l).Sublist l := by
  induction l with
  | nil => intro seen; simp [streamingDedup]
  | cons r rest ih =>
      intro seen
      by_cases h : seen.contains r.url = true
      · rw [streamingDedup_cons_mem h]
        exact (ih seen).cons r
      · rw [streamingDedup_cons_not_mem h]
        exact (ih (r.url :: seen)).cons₂ r

theorem streamingDedup_url_mem (u : String) (l : List RRItem) :
    ∀ seen, u ∈ (streamingDedup seen l).map (fun x => x.url) ↔
      (u ∈ l.map (fun x => x.url) ∧ u ∉ seen) := by
  induction l with
  | nil => intro seen; simp [streamingDedup]
  | cons r rest ih =>
      intro seen
      by_cases h : seen.contains r.url = true
      · have hr : r.url ∈ seen := by simpa using h
        rw [streamingDedup_cons_mem h]
        simp only [List.map_cons, List.mem_cons]
        rw [ih seen]
        constructor
        · rintro ⟨hm, hn⟩
          exact ⟨Or.inr hm, hn⟩
        · rintro ⟨hor, hn⟩
          cases hor with
          | inl he => exact absurd (he ▸ hr) hn
          | inr hm => exact ⟨hm, hn⟩
      · have hr : r.url ∉ seen := by simpa using h
        rw [streamingDedup_cons_not_mem h]
        simp only [List.map_cons, List.mem_cons]
        rw [ih (r.url :: seen)]
        constructor
        · rintro (he | ⟨hm, hn⟩)
          · exact ⟨Or.inl he, he ▸ hr⟩
          · rw [List.mem_cons] at hn
            push_neg at hn
            exact ⟨Or.inr hm, hn.2⟩
        · rintro ⟨hor, hn⟩
          cases hor with
          | inl he => exact Or.inl he
          | inr hm =>
              by_cases he : u = r.url
              · exact Or.inl he
              · refine Or.inr ⟨hm, ?_⟩
                rw [List.mem_cons]
                push_neg
                exact ⟨he, hn⟩

theorem streamingDedup_nodup (l : List RRItem) :
    ∀ seen, ((streamingDedup seen l).map (fun x => x.url)).Nodup := by
  induction l with
  | nil => intro seen; simp [streamingDedup]
  | cons r rest ih =>
      intro seen
      by_cases h : seen.contains r.url = true
      · rw [streamingDedup_cons_mem h]
        exact ih seen
      · rw [streamingDedup_cons_not_mem h]
        simp only [List.map_cons]
        rw [List.nodup_cons]
        refine ⟨?_, ih _⟩
        rw [streamingDedup_url_mem]
        rintro ⟨-, hn⟩
        exact hn (List.mem_cons_self _ _)

theorem streamingDedup_find (l : List RRItem) :
    ∀ seen r, r ∈ streamingDedup seen l →
      r.url ∉ seen ∧ l.find? (fun x => x.url == r.url) = some r := by
  induction l with
  | nil => intro seen r h; simp [streamingDedup] at h
  | cons a rest ih =>
      intro seen r h
      by_cases hc : seen.contains a.url = true
      · have ha : a.url ∈ seen := by simpa using hc
        rw [streamingDedup_cons_mem hc] at h
        obtain ⟨hn, hfind⟩ := ih seen r h
        refine ⟨hn, ?_⟩
        have hne : (a.url == r.url) = false := by
          rw [beq_eq_false_iff_ne]
          intro he
          exact hn (he ▸ ha)
        simp [List.find?, hne, hfind]
      · have ha : a.url ∉ seen := by simpa using hc
        rw [streamingDedup_cons_not_mem hc] at h
        rw [List.mem_cons] at h
        cases h with
        | inl he =>
            subst he
            exact ⟨ha, by simp [List.find?]⟩
        | inr hm =>
            obtain ⟨hn, hfind⟩ := ih _ r hm
            rw [List.mem_cons] at hn
            push_neg at hn
            refine ⟨hn.2, ?_⟩
            have hne : (a.url == r.url) = false := by
              rw [beq_eq_false_iff_ne]
              intro he
              exact hn.1 he.symm
            simp [List.find?, hne, hfind]

/-- C6: the presentation-side URL deduplication keeps exactly one item
per distinct URL (list length = number of distinct URLs), preserves
first-seen order (the output is a sublist of the input), and each kept
item is the first-seen item with its URL. (The source loop only reads
the cached aggregate; it builds a fresh display list, which the purely
functional embedding reflects.) -/
theorem dedup_display_property :
    ∀ l : List RRItem,
      (streamingDedup [] l).length = (l.map (fun x => x.url)).toFinset.card ∧
      (streamingDedup [] l).Sublist l ∧
      ∀ r ∈ streamingDedup [] l, l.find? (fun x => x.url == r.url) = some r := by
  intro l
  refine ⟨?_, streamingDedup_sublist l [],
    fun r hr => (streamingDedup_find l [] r hr).2⟩
  have hnd : ((streamingDedup [] l).map (fun x => x.url)).Nodup :=
    streamingDedup_nodup l []
  have hfs : ((streamingDedup [] l).map (fun x => x.url)).toFinset =
      (l.map (fun x => x.url)).toFinset := by
    ext u
    simp only [List.mem_toFinset]
    rw [streamingDedup_url_mem]
    simp
  calc (streamingDedup [] l).length
      = ((streamingDedup [] l).map (fun x => x.url)).length := by
        rw [List.length_map]
    _ = ((streamingDedup [] l).map (fun x => x.url)).toFinset.card :=
        (List.toFinset_card_of_nodup hnd).symm
    _ = (l.map (fun x => x.url)).toFinset.card := by rw [hfs]

/-- Witness for C6 on `dedupSample`: 2 display items for 2 distinct URLs,
and the kept item for the duplicated URL is the first-seen one. -/
theorem dedup_display_property_witness :
    (streamingDedup [] dedupSample).length =
      (dedupSample.map (fun x => x.url)).toFinset.card ∧
    (streamingDedup [] dedupSample).Sublist dedupSample ∧
    dedupSample.find?
        (fun x => x.url == (⟨"SEC", "https://a.example/1", "t1", "c1"⟩ : RRItem).url) =
      some ⟨"SEC", "https://a.example/1", "t1", "c1"⟩ :=
  ⟨(dedup_display_property dedupSample).1,
   (dedup_display_property dedupSample).2.1,
   (dedup_display_property dedupSample).2.2
     ⟨"SEC", "https://a.example/1", "t1", "c1"⟩ (by decide)⟩

theorem pySlice_length_le (n : Nat) (s : String) : (pySlice n s).length ≤ n := by
  show (s.data.take n).length ≤ n
  exact List.length_take_le n s.data

theorem crawlFormat_content_le (sn u : String) (it : CrawlItem) :
    (crawlFormat sn u it).content.length ≤ 1500 :=
  pySlice_length_le 1500 _

theorem forall_map {α β : Type} (p : β → Prop) (f : α → β) (h : ∀ a, p (f a)) :
    ∀ l : List α, List.Forall p (l.map f)
  | [] => trivial
  | a :: t => by
      rw [List.map_cons, List.forall_cons]
      exact ⟨h a, forall_map p f h t⟩

/-- C7 (amended): every result formatted from a catalog-source crawl has
its content excerpt truncated to at most 1500 characters, while a result
formatted from the general web search carries the service's content
field through unmodified (no length bound is applied on that path). -/
theorem excerpt_bound_amended :
    (∀ (env : TavilyEnv) (sn u ins : String),
        List.Forall (fun r => r.content.length ≤ 1500)
          (get_crawl_results env sn u ins)) ∧
    (∀ item : SearchItem, (searchFormat item).content = item.content.getD "") := by
  constructor
  · intro env sn u ins
    unfold get_crawl_results
    cases env.crawl u ins with
    | none => trivial
    | some items => exact forall_map _ _ (crawlFormat_content_le sn u) items
  · intro item
    rfl

set_option maxRecDepth 10000 in
/-- Counterexample to C7 as stated: a web-search result reaches the
aggregate with a 1501-character content excerpt, exceeding the claimed
1500-character bound. -/
theorem search_excerpt_unbounded_counterexample :
    ((crawl_regulatory_sites id unboundedEnv [] "fintech" "US" "GDPR").res.results.map
        (fun r => r.content.length)) = [1501] ∧ ¬ (1501 ≤ 1500) := by
  exact ⟨rfl, by decide⟩

theorem charsLead_single_iff (c : Char) (l : List Char) :
    charsLead [c] l = true ↔ ∃ t, l = c :: t := by
  cases l with
  | nil => simp [charsLead]
  | cons d ds =>
      constructor
      · intro h
        have hcd : (c == d) = true := by
          simpa [charsLead] using h
        exact ⟨ds, by rw [eq_of_beq hcd]⟩
      · rintro ⟨t, ht⟩
        injection ht with h1 h2
        subst h1
        simp [charsLead]

/-- C8: the intent classifier answers `true` exactly when the stripped,
lowercased completion response begins with the affirmative token `'y'`;
in particular the apology placeholder produced when the completion call
itself raises yields `false` (routing the turn to general chat). -/
theorem intent_affirmative_only :
    (∀ t : String, is_regulatory_query (some t) = true ↔
        ∃ rest, (pyLower (pyStrip t)).data = 'y' :: rest) ∧
    is_regulatory_query none = false := by
  constructor
  · intro t
    show charsLead ("y" : String).data (pyLower (pyStrip t)).data = true ↔ _
    rw [show ("y" : String).data = ['y'] from rfl]
    exact charsLead_single_iff 'y' _
  · rfl

theorem fallbackReportType_mem (message : String) :
    fallbackReportType message = "quick" ∨ fallbackReportType message = "summary" ∨
      fallbackReportType message = "full" := by
  unfold fallbackReportType
  simp only []
  split_ifs <;> simp

theorem fallback_rt_valid (message : String) :
    isValidReportType (some (Json.str (fallbackReportType message))) = true := by
  rcases fallbackReportType_mem message with h | h | h <;> rw [h] <;> rfl

theorem dictSet_lookup_self (key : String) (v : Json) :
    ∀ fields, List.lookup key (dictSet fields key v) = some v := by
  intro fields
  induction fields with
  | nil => simp [dictSet, List.lookup]
  | cons p rest ih =>
      obtain ⟨k, w⟩ := p
      by_cases h : (k == key) = true
      · have hk : k = key := eq_of_beq h
        subst hk
        simp [dictSet, List.lookup]
      · have hk : k ≠ key := by simpa using h
        have hne : (key == k) = false := by
          rw [beq_eq_false_iff_ne]
          exact fun he => hk he.symm
        simp only [dictSet, if_neg h]
        simp [List.lookup, hne, ih]

theorem extract_parameters_none (message : String) :
    extract_parameters message none = Except.ok (Json.obj (fallbackParams message)) := by
  show (if isValidReportType (List.lookup "report_type" (fallbackParams message)) then
        Except.ok (Json.obj (fallbackParams message))
      else
        Except.ok (Json.obj (dictSet (fallbackParams message) "report_type" (Json.str "full"))))
    = Except.ok (Json.obj (fallbackParams message))
  rw [show List.lookup "report_type" (fallbackParams message) =
      some (Json.str (fallbackReportType message)) from rfl]
  rw [fallback_rt_valid]
  rfl

/-- Counterexample to C3 as stated: a completion response that parses as
valid non-object JSON (`"[]"`) makes `extract_parameters` raise
(`AttributeError` on `params.get`), and a response parsing to the empty
JSON object yields a params dict containing only `report_type` — no
industry, region, or keywords. -/
theorem extract_parameters_incomplete_counterexample :
    extract_parameters "What are the rules?" (some (Json.arr [])) = Except.error () ∧
    extract_parameters "What are the rules?" (some (Json.obj [])) =
      Except.ok (Json.obj [("report_type", Json.str "full")]) ∧
    List.lookup "industry" [("report_type", Json.str "full")] = none :=
  ⟨rfl, rfl, rfl⟩

/-- C3 (amended): `extract_parameters` returns a complete Query (industry
`"General"`, region `"US"`, keywords `""`, report_type in
{quick, summary, full}) whenever the completion response is not valid
JSON, and for any response parsing to a JSON object it returns a dict
whose report_type is one of {quick, summary, full} (any other value is
normalized to `"full"`); but it is not exception-free for every response:
valid non-object JSON raises, and a JSON object need not contain
industry, region or keywords (see the counterexample). -/
theorem extract_parameters_amended :
    (∀ message : String, ∃ rt,
        extract_parameters message none =
          Except.ok (Json.obj
            [("industry", Json.str "General"), ("region", Json.str "US"),
             ("keywords", Json.str ""), ("report_type", Json.str rt)]) ∧
        (rt = "quick" ∨ rt = "summary" ∨ rt = "full")) ∧
    (∀ (message : String) (fields : List (String × Json)), ∃ fields2,
        extract_parameters message (some (Json.obj fields)) =
          Except.ok (Json.obj fields2) ∧
        isValidReportType (List.lookup "report_type" fields2) = true) := by
  constructor
  · intro message
    exact ⟨fallbackReportType message, extract_parameters_none message,
      fallbackReportType_mem message⟩
  · intro message fields
    by_cases h : isValidReportType (List.lookup "report_type" fields) = true
    · refine ⟨fields, ?_, h⟩
      show (if isValidReportType (List.lookup "report_type" fields) then
          Except.ok (Json.obj fields)
        else Except.ok (Json.obj (dictSet fields "report_type" (Json.str "full"))))
        = Except.ok (Json.obj fields)
      rw [h]
      rfl
    · have h2 : isValidReportType (List.lookup "report_type" fields) = false := by
        cases hb : isValidReportType (List.lookup "report_type" fields) with
        | true => exact absurd hb h
        | false => rfl
      refine ⟨dictSet fields "report_type" (Json.str "full"), ?_, ?_⟩
      · show (if isValidReportType (List.lookup "report_type" fields) then
            Except.ok (Json.obj fields)
          else Except.ok (Json.obj (dictSet fields "report_type" (Json.str "full"))))
          = Except.ok (Json.obj (dictSet fields "report_type" (Json.str "full")))
        rw [h2]
        rfl
      · rw [dictSet_lookup_self]
        rfl

/-- Counterexample to C5 as stated: for the message
`"What fintech regulations apply in the EU?"` the spec's fallback rules
would derive industry `"fintech"` and region `"EU"`, but the source's
fallback branch returns the constants `"General"` and `"US"`. -/
theorem fallback_not_derived_counterexample :
    specFallbackIndustry "What fintech regulations apply in the EU?" = "fintech" ∧
    specFallbackRegion "What fintech regulations apply in the EU?" = "EU" ∧
    extract_parameters "What fintech regulations apply in the EU?" none =
      Except.ok (Json.obj
        [("industry", Json.str "General"), ("region", Json.str "US"),
         ("keywords", Json.str ""), ("report_type", Json.str "full")]) ∧
    ("General" : String) ≠ "fintech" ∧ ("US" : String) ≠ "EU" :=
  ⟨rfl, rfl, rfl, by decide, by decide⟩

/-- C5 (amended): the fallback path of `extract_parameters` performs no
industry-table or region-regex derivation: for every message it returns
the constants industry `"General"` and region `"US"` (and empty
keywords); only report_type is derived from the message, via the phrase
heuristics, and is always one of {quick, summary, full}. -/
theorem fallback_constant_industry_region :
    ∀ message : String,
      extract_parameters message none =
        Except.ok (Json.obj
          [("industry", Json.str "General"), ("region", Json.str "US"),
           ("keywords", Json.str ""),
           ("report_type", Json.str (fallbackReportType message))]) ∧
      (fallbackReportType message = "quick" ∨
        fallbackReportType message = "summary" ∨
        fallbackReportType message = "full") := by
  intro message
  exact ⟨extract_parameters_none message, fallbackReportType_mem message⟩
